import Mathlib

/-!
Verification development for the scheduling core of the dbt-Workbench
backend (`backend/app/services/scheduler_service.py`,
`backend/app/core/scheduler_manager.py`,
`backend/app/services/notification_service.py`).

The Python code is shallowly embedded: pure decision logic becomes Lean
functions over explicit state values; the relational store becomes lists
of records; enum values are carried as the strings the code stores in the
database (`Column(String)`), mirroring Python's `Enum.value`.  Instants
are integers (minutes or seconds since an arbitrary epoch, noted at each
use site); database `DateTime` columns that may be NULL become `Option`.
-/

namespace DbtWorkbench

/-! ## Enumerations (`backend/app/schemas/scheduler.py`, `execution.py`)

Each Python `str, Enum` becomes an inductive together with a `value`
function giving the string that is persisted. -/

inductive RunFinalResult
  | SUCCESS | FAILURE | CANCELLED | SKIPPED
deriving DecidableEq, Repr

def RunFinalResult.value : RunFinalResult → String
  | .SUCCESS => "success"
  | .FAILURE => "failure"
  | .CANCELLED => "cancelled"
  | .SKIPPED => "skipped"

inductive RetryStatus
  | NOT_APPLICABLE | IN_PROGRESS | EXHAUSTED
deriving DecidableEq, Repr

def RetryStatus.value : RetryStatus → String
  | .NOT_APPLICABLE => "not_applicable"
  | .IN_PROGRESS => "in_progress"
  | .EXHAUSTED => "exhausted"

inductive RunStatus
  | QUEUED | RUNNING | SUCCEEDED | FAILED | CANCELLED
deriving DecidableEq, Repr

def RunStatus.value : RunStatus → String
  | .QUEUED => "queued"
  | .RUNNING => "running"
  | .SUCCEEDED => "succeeded"
  | .FAILED => "failed"
  | .CANCELLED => "cancelled"

inductive BackoffStrategy
  | FIXED | EXPONENTIAL
deriving DecidableEq, Repr

inductive CatchUpPolicy
  | SKIP | CATCH_UP
deriving DecidableEq, Repr

inductive OverlapPolicy
  | NO_OVERLAP | ALLOW_OVERLAP
deriving DecidableEq, Repr

def OverlapPolicy.value : OverlapPolicy → String
  | .NO_OVERLAP => "no_overlap"
  | .ALLOW_OVERLAP => "allow_overlap"

inductive TriggeringEvent
  | CRON | MANUAL
deriving DecidableEq, Repr

def TriggeringEvent.value : TriggeringEvent → String
  | .CRON => "cron"
  | .MANUAL => "manual"

inductive NotificationTrigger
  | RUN_STARTED | RUN_SUCCEEDED | RUN_FAILED | RUN_CANCELLED
deriving DecidableEq, Repr

def NotificationTrigger.value : NotificationTrigger → String
  | .RUN_STARTED => "run_started"
  | .RUN_SUCCEEDED => "run_succeeded"
  | .RUN_FAILED => "run_failed"
  | .RUN_CANCELLED => "run_cancelled"

inductive NotificationChannelType
  | SLACK | EMAIL | WEBHOOK
deriving DecidableEq, Repr

inductive RetentionAction
  | ARCHIVE | DELETE
deriving DecidableEq, Repr

/-! ## Retry policy engine (`scheduler_service.py`, `compute_retry_delay`) -/

/-- `RetryPolicy` pydantic model; integers are Python ints, hence `Int`. -/
structure RetryPolicy where
  max_retries : Int := 0
  delay_seconds : Int := 60
  backoff_strategy : BackoffStrategy := .FIXED
  max_delay_seconds : Option Int := none
deriving DecidableEq, Repr

/-- `SchedulerService.compute_retry_delay` (scheduler_service.py:835-843):
fixed strategy returns `delay_seconds`; otherwise
`delay_seconds * 2 ** max(attempt_number - 1, 0)`, then `min` with
`max_delay_seconds` when that is not `None`. -/
def compute_retry_delay (retry_policy : RetryPolicy) (attempt_number : Int) : Int :=
  if retry_policy.backoff_strategy = BackoffStrategy.FIXED then
    retry_policy.delay_seconds
  else
    let base_delay := retry_policy.delay_seconds
    let delay := base_delay * 2 ^ (max (attempt_number - 1) 0).toNat
    match retry_policy.max_delay_seconds with
    | some m => min delay m
    | none => delay

/-- The exponential policy of the spec's backoff example. -/
def expPolicy10 : RetryPolicy :=
  { max_retries := 3, delay_seconds := 10, backoff_strategy := .EXPONENTIAL,
    max_delay_seconds := some 40 }

/-- The fixed policy of the spec's backoff example. -/
def fixedPolicy10 : RetryPolicy :=
  { max_retries := 3, delay_seconds := 10, backoff_strategy := .FIXED,
    max_delay_seconds := none }

/-- One `scheduled_run_attempts` row (the columns the scheduler logic reads). -/
structure AttemptRec where
  attempt_number : Int
  status : String
  queued_at : Option Int := none
  started_at : Option Int := none
  finished_at : Option Int := none
deriving DecidableEq, Repr

/-- One `scheduled_runs` row together with its `attempts` relationship
(the columns the scheduler logic reads; link/snapshot JSON columns are
not modelled). -/
structure RunRec where
  id : Int := 0
  schedule_id : Int
  triggering_event : String
  status : String
  retry_status : String
  attempts_total : Int
  scheduled_at : Int
  queued_at : Option Int := none
  started_at : Option Int := none
  finished_at : Option Int := none
  attempts : List AttemptRec := []
deriving DecidableEq, Repr

/-- One `environments` row (only the identity matters to the claims). -/
structure EnvironmentRec where
  id : Int
  name : String := "default"
deriving DecidableEq, Repr

/-- One `schedules` row (the columns the scheduler loop reads; the
policy columns store enum `.value` strings that always round-trip, so
they are kept parsed here). -/
structure ScheduleRec where
  id : Int
  environment_id : Int
  catch_up_policy : CatchUpPolicy := .SKIP
  overlap_policy : OverlapPolicy := .NO_OVERLAP
  retry_policy : RetryPolicy := {}
  enabled : Bool := true
  next_run_time : Option Int := none
  last_run_time : Option Int := none
deriving Repr

/-- `sorted(attempts, key=lambda a: a.attempt_number)`: stable insertion
sort on `attempt_number`. -/
def insertByNumber (a : AttemptRec) : List AttemptRec → List AttemptRec
  | [] => [a]
  | b :: bs =>
      if a.attempt_number ≤ b.attempt_number then a :: b :: bs
      else b :: insertByNumber a bs

def sortAttempts (l : List AttemptRec) : List AttemptRec :=
  l.foldr insertByNumber []

/-- The `active` query of `create_scheduled_run`
(scheduler_service.py:588-602): first run of the schedule whose `status`
is NOT IN the listed four `RunFinalResult` values. -/
def overlapActiveQuery (schedule_id : Int) (runs : List RunRec) : Option RunRec :=
  (runs.filter (fun r =>
      r.schedule_id == schedule_id &&
      !([RunFinalResult.SUCCESS.value, RunFinalResult.FAILURE.value,
         RunFinalResult.CANCELLED.value, RunFinalResult.SKIPPED.value].contains r.status))).head?

/-- `SchedulerService.create_scheduled_run` (scheduler_service.py:580-655):
under NO_OVERLAP, return `None` if the `active` query finds a run; return
`None` if the environment row is missing; otherwise insert a new
ScheduledRun with `status=SKIPPED`, `retry_status=NOT_APPLICABLE`,
`attempts_total=0`. -/
def create_scheduled_run (sched : ScheduleRec) (envs : List EnvironmentRec)
    (runs : List RunRec) (scheduled_time : Int) (triggering_event : TriggeringEvent) :
    Option RunRec :=
  if sched.overlap_policy = OverlapPolicy.NO_OVERLAP ∧
      (overlapActiveQuery sched.id runs).isSome then
    none
  else
    match envs.find? (fun e => e.id == sched.environment_id) with
    | none => none
    | some _env =>
        some { schedule_id := sched.id,
               triggering_event := triggering_event.value,
               status := RunFinalResult.SKIPPED.value,
               retry_status := RetryStatus.NOT_APPLICABLE.value,
               attempts_total := 0,
               scheduled_at := scheduled_time }

/-- `SchedulerService.start_attempt_for_scheduled_run`
(scheduler_service.py:657-734).  `executor_run_id = none` models the
executor raising `RuntimeError` (concurrency limit): the function returns
`None` and changes nothing.  Otherwise a QUEUED attempt is inserted and
the run is reset: `attempts_total` bumped, `status=SKIPPED`,
`retry_status` NOT_APPLICABLE when `max_retries == 0` else IN_PROGRESS,
`started_at`/`finished_at` cleared. -/
def start_attempt_for_scheduled_run (retry_policy : RetryPolicy) (run : RunRec)
    (now : Int) (executor_run_id : Option String) : Option (AttemptRec × RunRec) :=
  let attempt_number := run.attempts_total + 1
  match executor_run_id with
  | none => none
  | some _rid =>
      let attempt : AttemptRec :=
        { attempt_number := attempt_number,
          status := RunStatus.QUEUED.value,
          queued_at := some now }
      some (attempt,
        { run with
          attempts := run.attempts ++ [attempt],
          attempts_total := attempt_number,
          status := RunFinalResult.SKIPPED.value,
          retry_status :=
            if retry_policy.max_retries = 0 then RetryStatus.NOT_APPLICABLE.value
            else RetryStatus.IN_PROGRESS.value,
          queued_at := some now,
          started_at := none,
          finished_at := none })

/-- `SchedulerService._update_scheduled_run_aggregate`
(scheduler_service.py:763-831): recompute the run's aggregate state from
its sorted attempts and decide which notification trigger (if any) to
dispatch.  Returns the updated row and the trigger passed to
`_send_and_record_notifications` (`none` when nothing is dispatched). -/
def update_scheduled_run_aggregate (retry_policy : RetryPolicy) (run : RunRec) :
    RunRec × Option NotificationTrigger :=
  let attempts := sortAttempts run.attempts
  match attempts.getLast? with
  | none => (run, none)
  | some last_attempt =>
      let run1 := { run with
        queued_at := attempts.head?.bind (·.queued_at),
        started_at := attempts.head?.bind (·.started_at),
        finished_at := last_attempt.finished_at }
      let previous_status := run.status
      let previous_retry_status := run.retry_status
      let run2 :=
        if last_attempt.status = RunStatus.SUCCEEDED.value then
          { run1 with
            status := RunFinalResult.SUCCESS.value,
            retry_status :=
              if run.attempts_total ≤ 1 then RetryStatus.NOT_APPLICABLE.value
              else RetryStatus.IN_PROGRESS.value }
        else if last_attempt.status = RunStatus.CANCELLED.value then
          { run1 with
            status := RunFinalResult.CANCELLED.value,
            retry_status := RetryStatus.EXHAUSTED.value }
        else if last_attempt.status = RunStatus.FAILED.value then
          if run.attempts_total > retry_policy.max_retries then
            { run1 with
              status := RunFinalResult.FAILURE.value,
              retry_status := RetryStatus.EXHAUSTED.value }
          else
            { run1 with
              status := RunFinalResult.FAILURE.value,
              retry_status := RetryStatus.IN_PROGRESS.value }
        else run1
      let trigger : Option NotificationTrigger :=
        if run2.status ≠ previous_status ∨ run2.retry_status ≠ previous_retry_status then
          if run2.status = RunFinalResult.SUCCESS.value then
            some NotificationTrigger.RUN_SUCCEEDED
          else if run2.status = RunFinalResult.CANCELLED.value then
            some NotificationTrigger.RUN_CANCELLED
          else if run2.status = RunFinalResult.FAILURE.value ∧
              run2.retry_status = RetryStatus.EXHAUSTED.value then
            some NotificationTrigger.RUN_FAILED
          else none
        else none
      (run2, trigger)

/-- Outcome of `_schedule_retries` for one IN_PROGRESS run
(scheduler_manager.py:129-171). -/
inductive RetryDecision
  | not_considered   -- query filter: retry_status ≠ IN_PROGRESS
  | exhausted        -- run.retry_status := EXHAUSTED, no launch
  | wait             -- `continue`: nothing happens this tick
  | launch           -- start the next attempt
deriving DecidableEq, Repr

/-- The per-run decision logic of `_schedule_retries`
(scheduler_manager.py:129-171). -/
def schedule_retry_decision (retry_policy : RetryPolicy) (run : RunRec) (now : Int) :
    RetryDecision :=
  if run.retry_status ≠ RetryStatus.IN_PROGRESS.value then .not_considered
  else if retry_policy.max_retries ≤ 0 then .exhausted
  else
    match (sortAttempts run.attempts).getLast? with
    | none => .wait
    | some last_attempt =>
        if ¬(last_attempt.status = RunStatus.FAILED.value ∨
             last_attempt.status = RunStatus.CANCELLED.value) then .wait
        else
          match last_attempt.finished_at with
          | none => .wait
          | some finished_at =>
              let next_attempt_number := last_attempt.attempt_number + 1
              if next_attempt_number > retry_policy.max_retries + 1 then .exhausted
              else if finished_at + compute_retry_delay retry_policy next_attempt_number > now then
                .wait
              else .launch

/-! ## Facts about the aggregate recomputation -/

/-- Attempt statuses the executor reports as terminal
(SUCCEEDED / FAILED / CANCELLED). -/
def terminalAttemptStatus (s : String) : Prop :=
  s = RunStatus.SUCCEEDED.value ∨ s = RunStatus.FAILED.value ∨
    s = RunStatus.CANCELLED.value

instance (s : String) : Decidable (terminalAttemptStatus s) := by
  unfold terminalAttemptStatus
  infer_instance

/-- The four strings a `RunFinalResult` can serialize to — the only
values ever written into `scheduled_runs.status`. -/
def runFinalResultValues : List String :=
  [RunFinalResult.SUCCESS.value, RunFinalResult.FAILURE.value,
   RunFinalResult.CANCELLED.value, RunFinalResult.SKIPPED.value]

/-- Helper: the (status, retry_status) pair the aggregate computes from
the latest attempt's status, the attempt counter, and the previous pair
(returned unchanged when the latest attempt is not terminal). -/
def aggPair (p : RetryPolicy) (lastStatus : String) (total : Int) (s0 rs0 : String) :
    String × String :=
  if lastStatus = RunStatus.SUCCEEDED.value then
    (RunFinalResult.SUCCESS.value,
     if total ≤ 1 then RetryStatus.NOT_APPLICABLE.value else RetryStatus.IN_PROGRESS.value)
  else if lastStatus = RunStatus.CANCELLED.value then
    (RunFinalResult.CANCELLED.value, RetryStatus.EXHAUSTED.value)
  else if lastStatus = RunStatus.FAILED.value then
    (RunFinalResult.FAILURE.value,
     if total > p.max_retries then RetryStatus.EXHAUSTED.value
     else RetryStatus.IN_PROGRESS.value)
  else (s0, rs0)

/-- States of one `scheduled_runs` row reachable through the scheduler's
transitions, for a schedule whose (fixed) retry policy is `p`: creation
(`create_scheduled_run`); attempt launch
(`start_attempt_for_scheduled_run`, invoked on a fresh run right after
creation or when `_schedule_retries` decides to launch a retry);
executor polling (`update_attempt_status_from_executor`: a RUNNING
update, or a terminal update followed by the aggregate recomputation);
and the EXHAUSTED marking of `_schedule_retries`.  Polling updates the
latest attempt — earlier attempts are already terminal and are skipped
by `_update_attempt_statuses`. -/
inductive Reach (p : RetryPolicy) : RunRec → Prop
  | created (sched : ScheduleRec) (envs : List EnvironmentRec) (runs : List RunRec)
      (t : Int) (ev : TriggeringEvent) (r : RunRec)
      (h : create_scheduled_run sched envs runs t ev = some r) : Reach p r
  | started (r : RunRec) (now : Int) (rid : String) (a : AttemptRec) (r' : RunRec)
      (hr : Reach p r)
      (hgate : r.attempts_total = 0 ∨
        schedule_retry_decision p r now = RetryDecision.launch)
      (h : start_attempt_for_scheduled_run p r now (some rid) = some (a, r')) :
      Reach p r'
  | polled_running (r : RunRec) (init : List AttemptRec) (a : AttemptRec) (t : Int)
      (hr : Reach p r) (hatt : r.attempts = init ++ [a])
      (hnt : ¬ terminalAttemptStatus a.status) :
      Reach p { r with attempts :=
        init ++ [{ a with status := RunStatus.RUNNING.value, started_at := some t }] }
  | polled_terminal (r : RunRec) (init : List AttemptRec) (a : AttemptRec)
      (s2 : RunStatus) (t : Int)
      (hr : Reach p r) (hatt : r.attempts = init ++ [a])
      (hnt : ¬ terminalAttemptStatus a.status)
      (hterm : terminalAttemptStatus s2.value) :
      Reach p (update_scheduled_run_aggregate p
        { r with attempts := init ++ [{ a with status := s2.value, finished_at := some t }] }).1
  | retry_exhausted (r : RunRec) (now : Int)
      (hr : Reach p r)
      (hdec : schedule_retry_decision p r now = RetryDecision.exhausted) :
      Reach p { r with retry_status := RetryStatus.EXHAUSTED.value }

/-- Structural well-formedness of a scheduled-run row, maintained by
every scheduler transition. -/
structure RunWF (p : RetryPolicy) (r : RunRec) : Prop where
  status_enum : r.status ∈ runFinalResultValues
  skipped_of_no_terminal :
    r.status ≠ RunFinalResult.SKIPPED.value →
      ∃ init a, r.attempts = init ++ [a] ∧ terminalAttemptStatus a.status
  numbers_le : ∀ a ∈ r.attempts, a.attempt_number ≤ r.attempts_total
  sorted : r.attempts.Chain' (fun x y => x.attempt_number ≤ y.attempt_number)
  count : r.attempts_total = (r.attempts.length : Int)
  multi : 1 < r.attempts_total → p.max_retries ≠ 0

/-- Retry-status well-formedness of a reachable run: EXHAUSTED implies
the latest attempt is terminal, and IN_PROGRESS implies the policy has
retries configured. -/
structure RunRetryWF (p : RetryPolicy) (r : RunRec) : Prop where
  exhausted_terminal :
    r.retry_status = RetryStatus.EXHAUSTED.value →
      ∃ init a, r.attempts = init ++ [a] ∧ terminalAttemptStatus a.status
  in_progress_max :
    r.retry_status = RetryStatus.IN_PROGRESS.value → p.max_retries ≠ 0

def p2 : RetryPolicy :=
  { max_retries := 2, delay_seconds := 1, backoff_strategy := .FIXED,
    max_delay_seconds := none }

def env1 : EnvironmentRec := { id := 1 }

def sched1 : ScheduleRec :=
  { id := 1, environment_id := 1, overlap_policy := .NO_OVERLAP,
    retry_policy := p2 }

def c4a1 : AttemptRec := { attempt_number := 1, status := "queued", queued_at := some 10 }

def c4a1f : AttemptRec := { c4a1 with status := "failed", finished_at := some 20 }

def c4a2 : AttemptRec := { attempt_number := 2, status := "queued", queued_at := some 30 }

def c4a2f : AttemptRec := { c4a2 with status := "failed", finished_at := some 40 }

def c4a3 : AttemptRec := { attempt_number := 3, status := "queued", queued_at := some 50 }

def c4a3f : AttemptRec := { c4a3 with status := "failed", finished_at := some 60 }

def c4r0 : RunRec :=
  { schedule_id := 1, triggering_event := "cron", status := "skipped",
    retry_status := "not_applicable", attempts_total := 0, scheduled_at := 0 }

def c4r1 : RunRec :=
  { c4r0 with
    attempts := [c4a1], attempts_total := 1,
    retry_status := "in_progress", queued_at := some 10 }

def c4upd1 : RunRec := { c4r1 with attempts := [c4a1f] }

def c4r2 : RunRec :=
  { c4r1 with
    attempts := [c4a1f], status := "failure",
    retry_status := "in_progress", queued_at := some 10, finished_at := some 20 }

def c4r3 : RunRec :=
  { c4r2 with
    attempts := [c4a1f, c4a2], attempts_total := 2, status := "skipped",
    queued_at := some 30, finished_at := none }

def c4upd2 : RunRec := { c4r3 with attempts := [c4a1f, c4a2f] }

def c4r4 : RunRec :=
  { c4r3 with
    attempts := [c4a1f, c4a2f], status := "failure",
    queued_at := some 10, finished_at := some 40 }

def c4r5 : RunRec :=
  { c4r4 with
    attempts := [c4a1f, c4a2f, c4a3], attempts_total := 3,
    status := "skipped", queued_at := some 50, finished_at := none }

def c4upd3 : RunRec := { c4r5 with attempts := [c4a1f, c4a2f, c4a3f] }

def c4r6 : RunRec :=
  { c4r5 with
    attempts := [c4a1f, c4a2f, c4a3f], status := "failure",
    retry_status := "exhausted", queued_at := some 10, finished_at := some 60 }

/-- A fourth failed attempt under `max_retries = 2`. -/
def c2run4 : RunRec :=
  { c4upd3 with
    attempts := c4upd3.attempts ++
      [{ attempt_number := 4, status := "failed", queued_at := some 70,
         finished_at := some 80 }],
    attempts_total := 4 }

/-- Modelled from the spec: croniter's `get_next`, used by
`_compute_next_run_time`, is an external library (not part of this
repository); per §4.1 `NextFireTime` returns the first instant matching
the cron expression strictly after `from`.  A parsed cron expression is
represented by its matching predicate on instants; the search walks
minute by minute and is bounded by `fuel`. -/
def nextFireAux (matchesFn : Int → Bool) : Nat → Int → Option Int
  | 0, _ => none
  | fuel + 1, t =>
      if matchesFn (t + 1) then some (t + 1) else nextFireAux matchesFn fuel (t + 1)

def nextFireTime (fuel : Nat) (matchesFn : Int → Bool) (fromTime : Int) : Option Int :=
  nextFireAux matchesFn fuel fromTime

/-- The matcher of the cron expression `"0 * * * *"` (minute-of-hour 0,
every hour) on minutes-since-epoch, timezone UTC. -/
def hourlyMatches : Int → Bool := fun t => t % 60 == 0

/-- One `scheduler_events` row (the columns relevant to error
surfacing). -/
structure SchedulerEventRec where
  schedule_id : Option Int := none
  scheduled_run_id : Option Int := none
  level : String := "INFO"
  event_type : String
  message : String := ""
deriving DecidableEq, Repr

/-- `SchedulerService._compute_next_run_time`
(scheduler_service.py:538-565), together with the SchedulerEvent rows it
writes.  `parsed = none` models croniter/ZoneInfo raising on an
unparseable cron expression or unknown timezone: the exception is
caught, `logger.error` is called (application log only) and `None` is
returned — the function writes no SchedulerEvent row. -/
def compute_next_run_time (fuel : Nat) (parsed : Option (Int → Bool))
    (from_time : Int) : Option Int × List SchedulerEventRec :=
  match parsed with
  | none => (none, [])
  | some matchesFn => (nextFireTime fuel matchesFn from_time, [])

/-- `SchedulerService.find_due_schedules` (scheduler_service.py:569-578):
enabled schedules whose `next_run_time` is non-NULL and `<= now`. -/
def find_due_schedules (schedules : List ScheduleRec) (now : Int) : List ScheduleRec :=
  schedules.filter (fun s =>
    s.enabled &&
    (match s.next_run_time with
     | some t => decide (t ≤ now)
     | none => false))

/-- The while loop of `_process_due_schedule`
(scheduler_manager.py:54-97), structurally recursive in the remaining
`max_catchup - created` budget.  Returns the final local
`next_run_time`, the store with the created runs appended, the
scheduled times of the runs actually created, and the final `created`
counter (which counts loop iterations, whether or not a run was
created). -/
def processDueAux (fuel : Nat) (parsed : Option (Int → Bool))
    (catch_up : CatchUpPolicy) (now : Int) (sched : ScheduleRec)
    (envs : List EnvironmentRec) :
    Nat → Int → List RunRec → List Int → Nat →
    Option Int × List RunRec × List Int × Nat
  | 0, next, runs, acc, created => (some next, runs, acc, created)
  | budget + 1, next, runs, acc, created =>
      if next ≤ now then
        let step :=
          match create_scheduled_run sched envs runs next TriggeringEvent.CRON with
          | some r => (runs ++ [r], acc ++ [next])
          | none => (runs, acc)
        match (compute_next_run_time fuel parsed next).1 with
        | none => (none, step.1, step.2, created + 1)
        | some n2 =>
            if catch_up = CatchUpPolicy.SKIP then (some n2, step.1, step.2, created + 1)
            else processDueAux fuel parsed catch_up now sched envs budget n2
              step.1 step.2 (created + 1)
      else (some next, runs, acc, created)

/-- `_process_due_schedule` (scheduler_manager.py:54-97): run the
catch-up loop from `next_run_time or now`, persist the advanced
`next_run_time`/`last_run_time` when at least one iteration ran, and
apply the zero-runs recomputation of lines 89-97.  Returns the updated
schedule row, the store, and the scheduled times of created runs. -/
def process_due_schedule (fuel : Nat) (parsed : Option (Int → Bool))
    (max_catchup : Nat) (now : Int) (sched : ScheduleRec)
    (envs : List EnvironmentRec) (runs : List RunRec) :
    ScheduleRec × List RunRec × List Int :=
  let next0 := sched.next_run_time.getD now
  let result := processDueAux fuel parsed sched.catch_up_policy now sched envs
    max_catchup next0 runs [] 0
  let nextFinal := result.1
  let runsFinal := result.2.1
  let acc := result.2.2.1
  let created := result.2.2.2
  let sched1 :=
    if created > 0 then
      { sched with next_run_time := nextFinal, last_run_time := some now }
    else sched
  let sched2 :=
    if created = 0 then
      match nextFinal with
      | some n =>
          if n ≤ now then
            { sched1 with next_run_time := (compute_next_run_time fuel parsed now).1 }
          else sched1
      | none => sched1
    else sched1
  (sched2, runsFinal, acc)

/-- The hourly schedule of the catch-up scenario: `next_run_time` points
at the earliest of three missed hourly slots (0, 60, 120), with
`now = 125` strictly before the first future slot 180. -/
def schedC3 (cu : CatchUpPolicy) : ScheduleRec :=
  { id := 2, environment_id := 1, catch_up_policy := cu,
    overlap_policy := .ALLOW_OVERLAP, enabled := true,
    next_run_time := some 0 }

inductive RetentionScope
  | PER_SCHEDULE | PER_ENVIRONMENT
deriving DecidableEq, Repr

/-- `RetentionPolicy` pydantic model. -/
structure RetentionPolicyRec where
  scope : RetentionScope := .PER_SCHEDULE
  keep_last_n_runs : Option Int := none
  keep_for_n_days : Option Int := none
  action : RetentionAction := .ARCHIVE
deriving DecidableEq, Repr

/-- `order_by(ScheduledRun.scheduled_at.desc())`: stable insertion sort,
newest first. -/
def insertByTimeDesc (r : RunRec) : List RunRec → List RunRec
  | [] => [r]
  | b :: bs =>
      if b.scheduled_at ≤ r.scheduled_at then r :: b :: bs
      else b :: insertByTimeDesc r bs

def sortRunsDesc (l : List RunRec) : List RunRec :=
  l.foldr insertByTimeDesc []

/-- The candidate-selection logic of `_apply_retention_for_schedule`
(scheduler_service.py:963-999): the schedule's runs newest first; if
`keep_last_n_runs` is set and positive, drop the newest N by id; if
`keep_for_n_days` is set and positive, keep only runs scheduled before
`now - keep_for_n_days` (the `or finished_at or now` fallbacks of line
990 are dead: the `scheduled_at` column is non-nullable); finally
restrict to terminal-state runs (SUCCESS / FAILURE / CANCELLED — never
an active run). -/
def retention_candidates (policy : RetentionPolicyRec) (schedule_id : Int)
    (store : List RunRec) (now : Int) : List RunRec :=
  let runs := sortRunsDesc (store.filter (fun r => r.schedule_id == schedule_id))
  if runs = [] then []
  else
    let candidates : List RunRec := runs
    let candidates : List RunRec :=
      match policy.keep_last_n_runs with
      | some k =>
          if 0 < k then
            let keep_ids := (runs.take k.toNat).map (fun r => r.id)
            candidates.filter (fun r => !(keep_ids.contains r.id))
          else candidates
      | none => candidates
    let candidates : List RunRec :=
      match policy.keep_for_n_days with
      | some d =>
          if 0 < d then
            let cutoff := now - d
            candidates.filter (fun r => decide (r.scheduled_at < cutoff))
          else candidates
      | none => candidates
    let final_statuses := [RunFinalResult.SUCCESS.value, RunFinalResult.FAILURE.value,
                           RunFinalResult.CANCELLED.value]
    candidates.filter (fun r => final_statuses.contains r.status)

/-- The action application of `_apply_retention_for_schedule`
(scheduler_service.py:1004-1028): DELETE removes each candidate row,
ARCHIVE clears its links but keeps the row; returns (deleted rows,
archived rows). -/
def apply_retention_for_schedule (policy : RetentionPolicyRec) (schedule_id : Int)
    (store : List RunRec) (now : Int) : List RunRec × List RunRec :=
  let candidates := retention_candidates policy schedule_id store now
  match policy.action with
  | .DELETE => (candidates, [])
  | .ARCHIVE => ([], candidates)

/-- The ten-run retention scenario: schedule 3, all runs terminal
(SUCCESS); five old runs scheduled at day 0 (40 days before `now = 40`)
and five newer runs at day 5 (still 35 days old, i.e. older than the
30-day cutoff). -/
def c6run (i : Int) (t : Int) : RunRec :=
  { id := i, schedule_id := 3, triggering_event := "cron", status := "success",
    retry_status := "not_applicable", attempts_total := 1, scheduled_at := t }

def c6store : List RunRec :=
  [c6run 1 0, c6run 2 0, c6run 3 0, c6run 4 0, c6run 5 0,
   c6run 6 5, c6run 7 5, c6run 8 5, c6run 9 5, c6run 10 5]

def c6policy : RetentionPolicyRec :=
  { keep_last_n_runs := some 5, keep_for_n_days := some 30, action := .DELETE }

structure SlackNotificationConfig where
  webhook_url : String
  triggers : List NotificationTrigger := []
  enabled : Bool := true
deriving DecidableEq, Repr

structure EmailNotificationConfig where
  recipients : List String := []
  triggers : List NotificationTrigger := []
  enabled : Bool := true
deriving DecidableEq, Repr

structure WebhookNotificationConfig where
  endpoint_url : String
  headers : List (String × String) := []
  triggers : List NotificationTrigger := []
  enabled : Bool := true
deriving DecidableEq, Repr

structure NotificationConfig where
  slack : Option SlackNotificationConfig := none
  email : Option EmailNotificationConfig := none
  webhook : Option WebhookNotificationConfig := none
deriving DecidableEq, Repr

/-- The result dict each channel sender returns
(`{"channel", "trigger", "success", "error_message"}`). -/
structure SendResult where
  channel : NotificationChannelType
  trigger : NotificationTrigger
  success : Bool
  error_message : Option String := none
deriving DecidableEq, Repr

/-- `NotificationService.send_notifications`
(notification_service.py:22-50): for slack, email and webhook in that
order, if the channel is configured and `enabled`, invoke its sender and
collect its result dict.  The sender's network outcome is the external
collaborator `send`.  The per-channel `triggers` subscription lists in
the config are never consulted. -/
def send_notifications (config : NotificationConfig) (trigger : NotificationTrigger)
    (send : NotificationChannelType → Bool × Option String) : List SendResult :=
  (match config.slack with
   | some s =>
       if s.enabled then
         [{ channel := .SLACK, trigger := trigger,
            success := (send .SLACK).1, error_message := (send .SLACK).2 }]
       else []
   | none => []) ++
  (match config.email with
   | some e =>
       if e.enabled then
         [{ channel := .EMAIL, trigger := trigger,
            success := (send .EMAIL).1, error_message := (send .EMAIL).2 }]
       else []
   | none => []) ++
  (match config.webhook with
   | some w =>
       if w.enabled then
         [{ channel := .WEBHOOK, trigger := trigger,
            success := (send .WEBHOOK).1, error_message := (send .WEBHOOK).2 }]
       else []
   | none => [])

/-- One `notification_events` row (the columns written by
`_send_and_record_notifications`). -/
structure NotificationEventRec where
  scheduled_run_id : Int
  channel : NotificationChannelType
  trigger : String
  status : String
  error_message : Option String := none
deriving DecidableEq, Repr

/-- The recording loop of `_send_and_record_notifications`
(scheduler_service.py:1118-1130): one NotificationEvent per sender
result, with status "success"/"failure" and the error text. -/
def record_notification_events (scheduled_run_id : Int) (trigger : NotificationTrigger)
    (results : List SendResult) : List NotificationEventRec :=
  results.map (fun res =>
    { scheduled_run_id := scheduled_run_id,
      channel := res.channel,
      trigger := trigger.value,
      status := if res.success then "success" else "failure",
      error_message := res.error_message })

/-- A Slack channel enabled but subscribed only to RUN_SUCCEEDED. -/
def c8config : NotificationConfig :=
  { slack := some { webhook_url := "https://hooks.example/x",
                    triggers := [.RUN_SUCCEEDED], enabled := true } }

/-- A sender stub that always succeeds. -/
def c8send : NotificationChannelType → Bool × Option String := fun _ => (true, none)

/-! ## Theorems -/

/-- C5: for every attempt number `n ≥ 1`, a FIXED policy yields
`delay_seconds`; an EXPONENTIAL policy yields `delay_seconds * 2^(n-1)`,
capped at `max_delay_seconds` when that is set; in particular the
EXPONENTIAL policy with `delay_seconds = 10`, `max_delay_seconds = 40`
yields 10, 20, 40, 40 at attempts 1, 2, 3, 4, and the FIXED policy with
`delay_seconds = 10` yields 10 at every attempt. -/
theorem retry_delay_spec (p : RetryPolicy) (n : Int) (h : 1 ≤ n) :
    (p.backoff_strategy = BackoffStrategy.FIXED →
      compute_retry_delay p n = p.delay_seconds) ∧
    (p.backoff_strategy = BackoffStrategy.EXPONENTIAL →
      compute_retry_delay p n =
        (match p.max_delay_seconds with
         | some m => min (p.delay_seconds * 2 ^ (n - 1).toNat) m
         | none => p.delay_seconds * 2 ^ (n - 1).toNat)) ∧
    compute_retry_delay expPolicy10 1 = 10 ∧
    compute_retry_delay expPolicy10 2 = 20 ∧
    compute_retry_delay expPolicy10 3 = 40 ∧
    compute_retry_delay expPolicy10 4 = 40 ∧
    compute_retry_delay fixedPolicy10 n = 10 := by
  refine ⟨?_, ?_, by decide, by decide, by decide, by decide, ?_⟩
  · intro hf
    simp [compute_retry_delay, hf]
  · intro he
    have hmax : max (n - 1) 0 = n - 1 := by omega
    cases hm : p.max_delay_seconds <;>
      simp [compute_retry_delay, he, hm, hmax]
  · simp [compute_retry_delay, fixedPolicy10]

/-- Closed witness for `retry_delay_spec` at `n = 2`. -/
theorem retry_delay_spec_witness :
    compute_retry_delay expPolicy10 2 = 20 ∧ compute_retry_delay fixedPolicy10 2 = 10 :=
  ⟨(retry_delay_spec fixedPolicy10 2 (by decide)).2.2.2.1,
   (retry_delay_spec fixedPolicy10 2 (by decide)).2.2.2.2.2.2⟩

/-! ## Persisted entities (`backend/app/database/models/models.py`)

`status`/`retry_status` columns are `Column(String)`; the embedding keeps
them as `String` holding the `.value` of the enum the code writes, so
"which strings can this column hold" is a real question.  Instants are
`Int` (seconds since an arbitrary epoch); nullable `DateTime` columns are
`Option Int`. -/

theorem insertByNumber_of_le (a : AttemptRec) (l : List AttemptRec)
    (h : ∀ b ∈ l.head?, a.attempt_number ≤ b.attempt_number) :
    insertByNumber a l = a :: l := by
  cases l with
  | nil => rfl
  | cons b bs => simp [insertByNumber, h b rfl]

/-- Python's stable `sorted` is the identity on an already sorted
attempt list. -/
theorem sortAttempts_eq_self (l : List AttemptRec)
    (h : l.Chain' (fun x y => x.attempt_number ≤ y.attempt_number)) :
    sortAttempts l = l := by
  induction l with
  | nil => rfl
  | cons a l ih =>
      rw [List.chain'_cons'] at h
      show insertByNumber a (sortAttempts l) = a :: l
      rw [ih h.2]
      exact insertByNumber_of_le a l h.1

theorem concat_last_eq {α : Type} (l1 l2 : List α) (a b : α)
    (h : l1 ++ [a] = l2 ++ [b]) : a = b := by
  have h2 := congrArg List.getLast? h
  simpa [List.getLast?_concat] using h2

/-- The aggregate recomputation never touches the attempt list, the
attempt counter, the schedule id or the scheduled time. -/
theorem aggregate_preserves (p : RetryPolicy) (r : RunRec) :
    (update_scheduled_run_aggregate p r).1.attempts = r.attempts ∧
    (update_scheduled_run_aggregate p r).1.attempts_total = r.attempts_total ∧
    (update_scheduled_run_aggregate p r).1.schedule_id = r.schedule_id := by
  simp only [update_scheduled_run_aggregate]
  cases h : (sortAttempts r.attempts).getLast? with
  | none => simp
  | some la =>
      simp only
      split_ifs <;> simp

/-- The aggregate either keeps `status` or writes one of
SUCCESS / CANCELLED / FAILURE. -/
theorem aggregate_status_cases (p : RetryPolicy) (r : RunRec) :
    (update_scheduled_run_aggregate p r).1.status = r.status ∨
    (update_scheduled_run_aggregate p r).1.status = RunFinalResult.SUCCESS.value ∨
    (update_scheduled_run_aggregate p r).1.status = RunFinalResult.CANCELLED.value ∨
    (update_scheduled_run_aggregate p r).1.status = RunFinalResult.FAILURE.value := by
  simp only [update_scheduled_run_aggregate]
  cases h : (sortAttempts r.attempts).getLast? with
  | none => simp
  | some la =>
      simp only
      split_ifs <;> simp

/-- If the aggregate leaves `retry_status = IN_PROGRESS`, then either it
was IN_PROGRESS before, or several attempts were counted, or the run
still has retries left (non-empty attempts and `attempts_total ≤
max_retries`). -/
theorem aggregate_in_progress (p : RetryPolicy) (r : RunRec)
    (h : (update_scheduled_run_aggregate p r).1.retry_status =
      RetryStatus.IN_PROGRESS.value) :
    r.retry_status = RetryStatus.IN_PROGRESS.value ∨
    1 < r.attempts_total ∨
    (r.attempts ≠ [] ∧ r.attempts_total ≤ p.max_retries) := by
  simp only [update_scheduled_run_aggregate] at h
  cases hla : (sortAttempts r.attempts).getLast? with
  | none =>
      rw [hla] at h
      exact Or.inl h
  | some la =>
      have hne : r.attempts ≠ [] := by
        intro hnil
        rw [hnil] at hla
        exact Option.noConfusion hla
      rw [hla] at h
      simp only at h
      split_ifs at h with h1 h2 h3 h4 <;>
        simp_all [RetryStatus.value]

theorem aggPair_idem (p : RetryPolicy) (ls : String) (total : Int) (s0 rs0 : String) :
    aggPair p ls total (aggPair p ls total s0 rs0).1 (aggPair p ls total s0 rs0).2 =
      aggPair p ls total s0 rs0 := by
  unfold aggPair
  split_ifs <;> rfl

/-- The aggregate's status/retry_status outcome, as a closed form. -/
theorem aggregate_state_eq (p : RetryPolicy) (r : RunRec) :
    ((update_scheduled_run_aggregate p r).1.status,
     (update_scheduled_run_aggregate p r).1.retry_status) =
      (match (sortAttempts r.attempts).getLast? with
       | none => (r.status, r.retry_status)
       | some la => aggPair p la.status r.attempts_total r.status r.retry_status) := by
  simp only [update_scheduled_run_aggregate, aggPair]
  cases hla : (sortAttempts r.attempts).getLast? with
  | none => simp
  | some la =>
      simp only
      split_ifs <;> simp

/-- A run whose aggregate state the aggregate maps to itself dispatches
no notification. -/
theorem aggregate_fixpoint_trigger (p : RetryPolicy) (x : RunRec)
    (hs : (update_scheduled_run_aggregate p x).1.status = x.status)
    (hr : (update_scheduled_run_aggregate p x).1.retry_status = x.retry_status) :
    (update_scheduled_run_aggregate p x).2 = none := by
  simp only [update_scheduled_run_aggregate] at *
  cases hla : (sortAttempts x.attempts).getLast? with
  | none => simp
  | some la =>
      rw [hla] at hs hr
      simp only at hs hr ⊢
      split_ifs at hs hr ⊢ <;> simp_all

/-- Recomputing the aggregate immediately again dispatches nothing: a
given attempt transition fires its notification at most once. -/
theorem aggregate_no_refire (p : RetryPolicy) (r : RunRec) :
    (update_scheduled_run_aggregate p
      (update_scheduled_run_aggregate p r).1).2 = none := by
  obtain ⟨ha, ht, -⟩ := aggregate_preserves p r
  have h1 := aggregate_state_eq p r
  have h2 := aggregate_state_eq p (update_scheduled_run_aggregate p r).1
  rw [ha, ht] at h2
  have hkey :
      ((update_scheduled_run_aggregate p (update_scheduled_run_aggregate p r).1).1.status,
       (update_scheduled_run_aggregate p (update_scheduled_run_aggregate p r).1).1.retry_status) =
      ((update_scheduled_run_aggregate p r).1.status,
       (update_scheduled_run_aggregate p r).1.retry_status) := by
    rw [h2]
    cases hla : (sortAttempts r.attempts).getLast? with
    | none => simp
    | some la =>
        rw [hla] at h1
        simp only at h1 ⊢
        have hsc := congrArg Prod.fst h1
        have hrc := congrArg Prod.snd h1
        simp only at hsc hrc
        rw [hsc, hrc]
        exact aggPair_idem p la.status r.attempts_total r.status r.retry_status
  have hs := congrArg Prod.fst hkey
  have hr := congrArg Prod.snd hkey
  simp only at hs hr
  exact aggregate_fixpoint_trigger p _ hs hr

/-- When the aggregate dispatches RUN_FAILED, the run has just moved to
(FAILURE, EXHAUSTED): that pair holds afterwards and did not hold
before the update. -/
theorem aggregate_run_failed (p : RetryPolicy) (r : RunRec)
    (h : (update_scheduled_run_aggregate p r).2 = some NotificationTrigger.RUN_FAILED) :
    (update_scheduled_run_aggregate p r).1.status = RunFinalResult.FAILURE.value ∧
    (update_scheduled_run_aggregate p r).1.retry_status = RetryStatus.EXHAUSTED.value ∧
    (r.status ≠ RunFinalResult.FAILURE.value ∨
      r.retry_status ≠ RetryStatus.EXHAUSTED.value) := by
  simp only [update_scheduled_run_aggregate] at h ⊢
  cases hla : (sortAttempts r.attempts).getLast? with
  | none =>
      rw [hla] at h
      simp at h
  | some la =>
      rw [hla] at h
      simp only at h ⊢
      split_ifs at h ⊢ <;>
        simp_all [RunFinalResult.value, RetryStatus.value, RunStatus.value] <;>
        tauto

/-- A failed attempt that still has retries left
(`attempts_total ≤ max_retries`) dispatches nothing. -/
theorem aggregate_failed_silent (p : RetryPolicy) (r : RunRec) (la : AttemptRec)
    (hla : (sortAttempts r.attempts).getLast? = some la)
    (hf : la.status = RunStatus.FAILED.value)
    (hleft : r.attempts_total ≤ p.max_retries) :
    (update_scheduled_run_aggregate p r).2 = none := by
  simp only [update_scheduled_run_aggregate]
  rw [hla]
  simp only
  split_ifs <;>
    simp_all [RunFinalResult.value, RetryStatus.value, RunStatus.value] <;>
    omega

/-- Outcome of the aggregate on a run whose latest attempt FAILED:
status FAILURE, and retry_status EXHAUSTED exactly when
`attempts_total > max_retries`. -/
theorem aggregate_failed_outcome (p : RetryPolicy) (r : RunRec) (la : AttemptRec)
    (hla : (sortAttempts r.attempts).getLast? = some la)
    (hf : la.status = RunStatus.FAILED.value) :
    (update_scheduled_run_aggregate p r).1.status = RunFinalResult.FAILURE.value ∧
    ((update_scheduled_run_aggregate p r).1.retry_status = RetryStatus.EXHAUSTED.value ↔
      p.max_retries < r.attempts_total) := by
  have h1 := aggregate_state_eq p r
  rw [hla] at h1
  simp only at h1
  have hs := congrArg Prod.fst h1
  have hr := congrArg Prod.snd h1
  simp only at hs hr
  unfold aggPair at hs hr
  rw [hf] at hs hr
  simp only [RunStatus.value] at hs hr
  norm_num at hs hr
  constructor
  · exact hs
  · rw [hr]
    split_ifs with hgt <;>
      simp_all [RetryStatus.value]

/-! ## Reachable states of one scheduled run -/

theorem create_scheduled_run_fields (sched : ScheduleRec) (envs : List EnvironmentRec)
    (runs : List RunRec) (t : Int) (ev : TriggeringEvent) (r : RunRec)
    (h : create_scheduled_run sched envs runs t ev = some r) :
    r.status = RunFinalResult.SKIPPED.value ∧
    r.retry_status = RetryStatus.NOT_APPLICABLE.value ∧
    r.attempts_total = 0 ∧ r.attempts = [] ∧
    r.schedule_id = sched.id ∧ r.scheduled_at = t := by
  unfold create_scheduled_run at h
  split_ifs at h
  rcases hf : envs.find? (fun e => e.id == sched.environment_id) with _ | env
  · rw [hf] at h
    exact absurd h (by simp)
  · rw [hf] at h
    simp only [Option.some.injEq] at h
    subst h
    simp

theorem start_attempt_fields (p : RetryPolicy) (r : RunRec) (now : Int) (rid : String)
    (a : AttemptRec) (r' : RunRec)
    (h : start_attempt_for_scheduled_run p r now (some rid) = some (a, r')) :
    a = { attempt_number := r.attempts_total + 1,
          status := RunStatus.QUEUED.value, queued_at := some now } ∧
    r' = { r with
           attempts := r.attempts ++ [a],
           attempts_total := r.attempts_total + 1,
           status := RunFinalResult.SKIPPED.value,
           retry_status :=
             if p.max_retries = 0 then RetryStatus.NOT_APPLICABLE.value
             else RetryStatus.IN_PROGRESS.value,
           queued_at := some now, started_at := none, finished_at := none } := by
  unfold start_attempt_for_scheduled_run at h
  simp only [Option.some.injEq, Prod.mk.injEq] at h
  obtain ⟨ha, hr⟩ := h
  subst ha
  subst hr
  exact ⟨rfl, rfl⟩

/-- A `_schedule_retries` decision to launch implies the policy has
retries configured. -/
theorem launch_max_pos (p : RetryPolicy) (r : RunRec) (now : Int)
    (h : schedule_retry_decision p r now = RetryDecision.launch) :
    0 < p.max_retries := by
  unfold schedule_retry_decision at h
  split_ifs at h with h1 h2
  omega

/-- What a `_schedule_retries` decision to mark EXHAUSTED implies about
the run. -/
theorem exhausted_decision_cases (p : RetryPolicy) (r : RunRec) (now : Int)
    (h : schedule_retry_decision p r now = RetryDecision.exhausted) :
    r.retry_status = RetryStatus.IN_PROGRESS.value ∧
    (p.max_retries ≤ 0 ∨
      ∃ la, (sortAttempts r.attempts).getLast? = some la ∧
        (la.status = RunStatus.FAILED.value ∨ la.status = RunStatus.CANCELLED.value) ∧
        p.max_retries + 1 < la.attempt_number + 1) := by
  unfold schedule_retry_decision at h
  split_ifs at h with h1 h2
  · exact ⟨not_not.mp h1, Or.inl h2⟩
  · refine ⟨not_not.mp h1, Or.inr ?_⟩
    rcases hla : (sortAttempts r.attempts).getLast? with _ | la
    · rw [hla] at h
      simp at h
    · rw [hla] at h
      simp only at h
      split_ifs at h with h3 h4
      · exact ⟨la, rfl, h3, by omega⟩
      · rcases hfin : la.finished_at with _ | fin <;> rw [hfin] at h <;>
          try simp at h
        split_ifs at h

theorem chain_append_singleton (init : List AttemptRec) (a b : AttemptRec)
    (h : (init ++ [a]).Chain' (fun x y => x.attempt_number ≤ y.attempt_number))
    (hab : b.attempt_number = a.attempt_number) :
    (init ++ [b]).Chain' (fun x y => x.attempt_number ≤ y.attempt_number) := by
  rw [List.chain'_append] at h ⊢
  refine ⟨h.1, List.chain'_singleton b, ?_⟩
  intro x hx y hy
  simp only [List.head?_cons, Option.mem_def, Option.some.injEq] at hy
  subst hy
  rw [hab]
  exact h.2.2 x hx a (by simp)

theorem chain_append_new (l : List AttemptRec) (a : AttemptRec)
    (h : l.Chain' (fun x y => x.attempt_number ≤ y.attempt_number))
    (hle : ∀ x ∈ l, x.attempt_number ≤ a.attempt_number) :
    (l ++ [a]).Chain' (fun x y => x.attempt_number ≤ y.attempt_number) := by
  rw [List.chain'_append]
  refine ⟨h, List.chain'_singleton a, ?_⟩
  intro x hx y hy
  simp only [List.head?_cons, Option.mem_def, Option.some.injEq] at hy
  subst hy
  exact hle x (List.mem_of_mem_getLast? hx)

/-- Every reachable scheduled-run row is structurally well formed: its
`status` column holds one of the four `RunFinalResult` strings, a status
other than SKIPPED is only ever derived from a terminal latest attempt,
attempt numbers are bounded by `attempts_total`, the attempt list is
sorted, `attempts_total` counts the attempts, and a second attempt is
only ever launched under a policy with retries. -/
theorem reach_wf (p : RetryPolicy) (r : RunRec) (h : Reach p r) : RunWF p r := by
  induction h with
  | created sched envs runs t ev r h =>
      obtain ⟨hs, hrs, htot, hatt, -, -⟩ :=
        create_scheduled_run_fields sched envs runs t ev r h
      refine ⟨?_, ?_, ?_, ?_, ?_, ?_⟩
      · rw [hs]
        simp [runFinalResultValues]
      · intro hne
        exact absurd hs hne
      · intro b hb
        rw [hatt] at hb
        simp at hb
      · rw [hatt]
        simp
      · rw [htot, hatt]
        simp
      · rw [htot]
        omega
  | started r now rid a r' hr hgate h ih =>
      obtain ⟨ha, hr'⟩ := start_attempt_fields p r now rid a r' h
      subst hr'
      refine ⟨?_, ?_, ?_, ?_, ?_, ?_⟩
      · simp [runFinalResultValues]
      · intro hne
        exact absurd rfl hne
      · intro b hb
        rcases List.mem_append.mp hb with hb | hb
        · have hnum := ih.numbers_le b hb
          show b.attempt_number ≤ r.attempts_total + 1
          omega
        · simp only [List.mem_singleton] at hb
          subst hb
          rw [ha]
      · show (r.attempts ++ [a]).Chain' _
        apply chain_append_new _ _ ih.sorted
        intro x hx
        have hnum := ih.numbers_le x hx
        rw [ha]
        show x.attempt_number ≤ r.attempts_total + 1
        omega
      · show r.attempts_total + 1 = ((r.attempts ++ [a]).length : Int)
        have hc := ih.count
        simp [List.length_append]
        omega
      · intro hlt
        show p.max_retries ≠ 0
        rcases hgate with h0 | hl
        · have hlt2 : (1 : Int) < r.attempts_total + 1 := hlt
          omega
        · have hpos := launch_max_pos p r now hl
          omega
  | polled_running r init a t hr hatt hnt ih =>
      refine ⟨?_, ?_, ?_, ?_, ?_, ?_⟩
      · exact ih.status_enum
      · intro hne
        obtain ⟨init2, b, hdec, hterm⟩ := ih.skipped_of_no_terminal hne
        rw [hatt] at hdec
        have hba : a = b := concat_last_eq init init2 a b hdec
        exact absurd (hba ▸ hterm) hnt
      · intro b hb
        rcases List.mem_append.mp hb with hb | hb
        · exact ih.numbers_le b (by rw [hatt]; exact List.mem_append_left _ hb)
        · simp only [List.mem_singleton] at hb
          subst hb
          exact ih.numbers_le a (by rw [hatt]; exact List.mem_append_right _ (by simp))
      · exact chain_append_singleton init a _ (hatt ▸ ih.sorted) rfl
      · have hc := ih.count
        rw [hatt] at hc
        simpa using hc
      · exact ih.multi
  | polled_terminal r init a s2 t hr hatt hnt hterm ih =>
      obtain ⟨hA, hT, -⟩ := aggregate_preserves p
        { r with attempts := init ++ [{ a with status := s2.value, finished_at := some t }] }
      refine ⟨?_, ?_, ?_, ?_, ?_, ?_⟩
      · rcases aggregate_status_cases p
          { r with attempts := init ++ [{ a with status := s2.value, finished_at := some t }] }
          with hst | hst | hst | hst <;> rw [hst]
        · exact ih.status_enum
        · simp [runFinalResultValues]
        · simp [runFinalResultValues]
        · simp [runFinalResultValues]
      · intro hne
        exact ⟨init, { a with status := s2.value, finished_at := some t }, by rw [hA], hterm⟩
      · intro b hb
        rw [hA] at hb
        rw [hT]
        rcases List.mem_append.mp hb with hb | hb
        · exact ih.numbers_le b (by rw [hatt]; exact List.mem_append_left _ hb)
        · simp only [List.mem_singleton] at hb
          subst hb
          exact ih.numbers_le a (by rw [hatt]; exact List.mem_append_right _ (by simp))
      · rw [hA]
        exact chain_append_singleton init a _ (hatt ▸ ih.sorted) rfl
      · rw [hA, hT]
        have hc := ih.count
        rw [hatt] at hc
        simpa using hc
      · rw [hT]
        exact ih.multi
  | retry_exhausted r now hr hdec ih =>
      exact ⟨ih.status_enum, ih.skipped_of_no_terminal, ih.numbers_le,
             ih.sorted, ih.count, ih.multi⟩

theorem reach_retry_wf (p : RetryPolicy) (hp : 0 ≤ p.max_retries) (r : RunRec)
    (h : Reach p r) : RunRetryWF p r := by
  induction h with
  | created sched envs runs t ev r h =>
      obtain ⟨-, hrs, -, -, -, -⟩ := create_scheduled_run_fields sched envs runs t ev r h
      constructor
      · intro he
        rw [hrs] at he
        simp [RetryStatus.value] at he
      · intro hi
        rw [hrs] at hi
        simp [RetryStatus.value] at hi
  | started r now rid a r' hr hgate h ih =>
      obtain ⟨ha, hr'⟩ := start_attempt_fields p r now rid a r' h
      subst hr'
      constructor
      · intro he
        by_cases h0 : p.max_retries = 0 <;> simp [h0, RetryStatus.value] at he
      · intro hi
        by_cases h0 : p.max_retries = 0
        · simp [h0, RetryStatus.value] at hi
        · exact h0
  | polled_running r init a t hr hatt hnt ih =>
      constructor
      · intro he
        obtain ⟨init2, b, hdec, hterm⟩ := ih.exhausted_terminal he
        rw [hatt] at hdec
        have hba : a = b := concat_last_eq init init2 a b hdec
        exact absurd (hba ▸ hterm) hnt
      · exact ih.in_progress_max
  | polled_terminal r init a s2 t hr hatt hnt hterm ih =>
      obtain ⟨hA, hT, -⟩ := aggregate_preserves p
        { r with attempts := init ++ [{ a with status := s2.value, finished_at := some t }] }
      constructor
      · intro he
        exact ⟨init, { a with status := s2.value, finished_at := some t }, by rw [hA], hterm⟩
      · intro hi
        rcases aggregate_in_progress p _ hi with hq | hq | hq
        · exact ih.in_progress_max hq
        · exact (reach_wf p r hr).multi hq
        · obtain ⟨hne, hle⟩ := hq
          have hc := (reach_wf p r hr).count
          rw [hatt] at hc
          simp [List.length_append] at hc
          have hle2 : r.attempts_total ≤ p.max_retries := hle
          omega
  | retry_exhausted r now hr hdec ih =>
      obtain ⟨hip, hcase⟩ := exhausted_decision_cases p r now hdec
      constructor
      · intro _
        rcases hcase with hmax | ⟨la, hla, hstat, hnum⟩
        · exact absurd (le_antisymm hmax hp) (ih.in_progress_max hip)
        · have hsorted := (reach_wf p r hr).sorted
          rw [sortAttempts_eq_self _ hsorted] at hla
          obtain ⟨init, hinit⟩ := List.getLast?_eq_some_iff.mp hla
          refine ⟨init, la, hinit, ?_⟩
          rcases hstat with hs | hs
          · exact Or.inr (Or.inl hs)
          · exact Or.inr (Or.inr hs)
      · intro hi
        simp [RetryStatus.value] at hi

/-! ## A concrete run history: two failed attempts with retries left,
then a third failure reaching exhaustion (`max_retries = 2`). -/

/-- The full trace, step by step, through the embedded operations. -/
theorem c4_trace_steps :
    create_scheduled_run sched1 [env1] [] 0 TriggeringEvent.CRON = some c4r0 ∧
    start_attempt_for_scheduled_run p2 c4r0 10 (some "job-1") = some (c4a1, c4r1) ∧
    update_scheduled_run_aggregate p2 c4upd1 = (c4r2, none) ∧
    schedule_retry_decision p2 c4r2 30 = RetryDecision.launch ∧
    start_attempt_for_scheduled_run p2 c4r2 30 (some "job-2") = some (c4a2, c4r3) ∧
    update_scheduled_run_aggregate p2 c4upd2 = (c4r4, none) ∧
    schedule_retry_decision p2 c4r4 50 = RetryDecision.launch ∧
    start_attempt_for_scheduled_run p2 c4r4 50 (some "job-3") = some (c4a3, c4r5) ∧
    update_scheduled_run_aggregate p2 c4upd3 = (c4r6, some NotificationTrigger.RUN_FAILED) := by
  decide

theorem c4r5_reach : Reach p2 c4r5 := by
  have h0 : Reach p2 c4r0 :=
    .created sched1 [env1] [] 0 .CRON c4r0 (by decide)
  have h1 : Reach p2 c4r1 :=
    .started c4r0 10 "job-1" c4a1 c4r1 h0 (Or.inl (by decide)) (by decide)
  have h2 : Reach p2 c4r2 := by
    have hstep := Reach.polled_terminal (p := p2) c4r1 [] c4a1 .FAILED 20 h1
      (by decide) (by decide) (by decide)
    have heq : (update_scheduled_run_aggregate p2
        { c4r1 with attempts :=
          [] ++ [{ c4a1 with status := RunStatus.FAILED.value, finished_at := some 20 }] }).1 =
        c4r2 := by decide
    exact heq ▸ hstep
  have h3 : Reach p2 c4r3 :=
    .started c4r2 30 "job-2" c4a2 c4r3 h2 (Or.inr (by decide)) (by decide)
  have h4 : Reach p2 c4r4 := by
    have hstep := Reach.polled_terminal (p := p2) c4r3 [c4a1f] c4a2 .FAILED 40 h3
      (by decide) (by decide) (by decide)
    have heq : (update_scheduled_run_aggregate p2
        { c4r3 with attempts :=
          [c4a1f] ++ [{ c4a2 with status := RunStatus.FAILED.value, finished_at := some 40 }] }).1 =
        c4r4 := by decide
    exact heq ▸ hstep
  exact .started c4r4 50 "job-3" c4a3 c4r5 h4 (Or.inr (by decide)) (by decide)

/-- C4: the RUN_FAILED notification is edge-triggered.  For every
reachable ScheduledRun whose in-flight latest attempt the executor
reports terminal, the aggregate update dispatches RUN_FAILED only when
the run's new state is (FAILURE, EXHAUSTED) and the run was not already
EXHAUSTED; recomputing the aggregate again dispatches nothing (at most
once per transition); a failed attempt with retries left
(`attempts_total ≤ max_retries`) dispatches nothing; and the concrete
trace — two failures with retries available, then a third failure
reaching exhaustion — dispatches RUN_FAILED exactly once, on the third
failure. -/
theorem run_failed_edge_triggered (p : RetryPolicy) (hp : 0 ≤ p.max_retries)
    (r : RunRec) (hr : Reach p r) (init : List AttemptRec) (a : AttemptRec)
    (s2 : RunStatus) (t : Int)
    (hatt : r.attempts = init ++ [a])
    (hnt : ¬ terminalAttemptStatus a.status)
    (hfire : (update_scheduled_run_aggregate p
        { r with attempts :=
          init ++ [{ a with status := s2.value, finished_at := some t }] }).2 =
      some NotificationTrigger.RUN_FAILED) :
    ((update_scheduled_run_aggregate p
        { r with attempts :=
          init ++ [{ a with status := s2.value, finished_at := some t }] }).1.status =
        RunFinalResult.FAILURE.value ∧
     (update_scheduled_run_aggregate p
        { r with attempts :=
          init ++ [{ a with status := s2.value, finished_at := some t }] }).1.retry_status =
        RetryStatus.EXHAUSTED.value ∧
     r.retry_status ≠ RetryStatus.EXHAUSTED.value) ∧
    (∀ (q : RetryPolicy) (x : RunRec),
       (update_scheduled_run_aggregate q (update_scheduled_run_aggregate q x).1).2 = none) ∧
    (∀ (q : RetryPolicy) (x : RunRec) (la : AttemptRec),
       (sortAttempts x.attempts).getLast? = some la →
       la.status = RunStatus.FAILED.value →
       x.attempts_total ≤ q.max_retries →
       (update_scheduled_run_aggregate q x).2 = none) ∧
    ((update_scheduled_run_aggregate p2 c4upd1).2 = none ∧
     (update_scheduled_run_aggregate p2 c4upd2).2 = none ∧
     (update_scheduled_run_aggregate p2 c4upd3).2 = some NotificationTrigger.RUN_FAILED) := by
  refine ⟨?_, ?_, ?_, by decide, by decide, by decide⟩
  · obtain ⟨h1, h2, -⟩ := aggregate_run_failed p _ hfire
    refine ⟨h1, h2, ?_⟩
    intro hexh
    obtain ⟨init2, b, hdec, hterm⟩ := (reach_retry_wf p hp r hr).exhausted_terminal hexh
    rw [hatt] at hdec
    exact absurd (concat_last_eq init init2 a b hdec ▸ hterm) hnt
  · intro q x
    exact aggregate_no_refire q x
  · intro q x la h1 h2 h3
    exact aggregate_failed_silent q x la h1 h2 h3

/-- Closed witness for `run_failed_edge_triggered` at the trace's third
failure. -/
theorem run_failed_edge_triggered_witness :
    (0 ≤ p2.max_retries ∧ c4r5.attempts = [c4a1f, c4a2f] ++ [c4a3]) ∧
    (update_scheduled_run_aggregate p2 c4upd3).1.status = RunFinalResult.FAILURE.value ∧
    (update_scheduled_run_aggregate p2 c4upd3).1.retry_status = RetryStatus.EXHAUSTED.value ∧
    c4r5.retry_status ≠ RetryStatus.EXHAUSTED.value :=
  ⟨⟨by decide, by decide⟩,
   (run_failed_edge_triggered p2 (by decide) c4r5 c4r5_reach [c4a1f, c4a2f] c4a3
      .FAILED 60 (by decide) (by decide) (by decide)).1⟩

/-- C10: every reachable ScheduledRun's `status` column holds one of the
four `RunFinalResult` strings; a run none of whose attempts is terminal
still carries `status = "skipped"` (SKIPPED doubles as the
pending/in-flight state); and every successful attempt launch resets
`status` to `"skipped"` until that attempt reaches a terminal state. -/
theorem scheduled_run_status_domain (p : RetryPolicy) (r : RunRec) (hr : Reach p r) :
    r.status ∈ runFinalResultValues ∧
    ((∀ a ∈ r.attempts, ¬ terminalAttemptStatus a.status) →
      r.status = RunFinalResult.SKIPPED.value) ∧
    (∀ (x : RunRec) (now : Int) (rid : String) (a : AttemptRec) (x' : RunRec),
       start_attempt_for_scheduled_run p x now (some rid) = some (a, x') →
       x'.status = RunFinalResult.SKIPPED.value ∧ a.status = RunStatus.QUEUED.value) := by
  refine ⟨(reach_wf p r hr).status_enum, ?_, ?_⟩
  · intro hno
    by_contra hne
    obtain ⟨init, a, hdec, hterm⟩ := (reach_wf p r hr).skipped_of_no_terminal hne
    exact hno a (by rw [hdec]; exact List.mem_append_right _ (by simp)) hterm
  · intro x now rid a x' h
    obtain ⟨ha, hx⟩ := start_attempt_fields p x now rid a x' h
    subst hx
    subst ha
    exact ⟨rfl, rfl⟩

/-- Closed witness for `scheduled_run_status_domain` at a reachable
in-flight run. -/
theorem scheduled_run_status_domain_witness :
    c4r5.status ∈ runFinalResultValues :=
  (scheduled_run_status_domain p2 c4r5 c4r5_reach).1

/-- C2 as stated is false on the code: with `max_retries = 2`, a run
whose third attempt just failed has `attempts_total = 3`, which does
not exceed `max_retries + 1 = 3`, yet the aggregate marks it
`retry_status = EXHAUSTED` (the code's threshold is
`attempts_total > max_retries`). -/
theorem retry_exhaustion_counterexample :
    p2.max_retries = 2 ∧
    c4upd3.attempts_total = 3 ∧
    ¬ (c4upd3.attempts_total > p2.max_retries + 1) ∧
    (sortAttempts c4upd3.attempts).getLast? = some c4a3f ∧
    c4a3f.status = RunStatus.FAILED.value ∧
    (update_scheduled_run_aggregate p2 c4upd3).1.retry_status =
      RetryStatus.EXHAUSTED.value := by
  decide

/-- C2 (amended): a ScheduledRun whose latest attempt FAILED is marked
`retry_status = EXHAUSTED` exactly when `attempts_total` exceeds
`max_retries` (not `max_retries + 1`): with `max_retries = 2` it is not
exhausted for attempts_total ∈ {1, 2} and exhausted for attempts_total
∈ {3, 4}; `_schedule_retries` applies the same threshold
(`next_attempt_number > max_retries + 1`), and there a policy with
`max_retries ≤ 0` is always exhausted. -/
theorem retry_exhaustion_threshold (p : RetryPolicy) (r : RunRec) (la : AttemptRec)
    (hla : (sortAttempts r.attempts).getLast? = some la)
    (hf : la.status = RunStatus.FAILED.value) :
    ((update_scheduled_run_aggregate p r).1.retry_status = RetryStatus.EXHAUSTED.value ↔
      p.max_retries < r.attempts_total) ∧
    (update_scheduled_run_aggregate p r).1.status = RunFinalResult.FAILURE.value ∧
    (∀ (q : RetryPolicy) (x : RunRec) (lb : AttemptRec) (now fin : Int),
       x.retry_status = RetryStatus.IN_PROGRESS.value →
       0 < q.max_retries →
       (sortAttempts x.attempts).getLast? = some lb →
       lb.status = RunStatus.FAILED.value →
       lb.finished_at = some fin →
       (schedule_retry_decision q x now = RetryDecision.exhausted ↔
         q.max_retries < lb.attempt_number)) ∧
    (∀ (q : RetryPolicy) (x : RunRec) (now : Int),
       q.max_retries ≤ 0 →
       x.retry_status = RetryStatus.IN_PROGRESS.value →
       schedule_retry_decision q x now = RetryDecision.exhausted) ∧
    ((update_scheduled_run_aggregate p2 c4upd1).1.retry_status ≠
        RetryStatus.EXHAUSTED.value ∧
     (update_scheduled_run_aggregate p2 c4upd2).1.retry_status ≠
        RetryStatus.EXHAUSTED.value ∧
     (update_scheduled_run_aggregate p2 c4upd3).1.retry_status =
        RetryStatus.EXHAUSTED.value ∧
     (update_scheduled_run_aggregate p2 c2run4).1.retry_status =
        RetryStatus.EXHAUSTED.value) := by
  obtain ⟨hstat, hiff⟩ := aggregate_failed_outcome p r la hla hf
  refine ⟨hiff, hstat, ?_, ?_, by decide, by decide, by decide, by decide⟩
  · intro q x lb now fin hip hqpos hlb hfb hfin
    constructor
    · intro hdec
      obtain ⟨-, hcase⟩ := exhausted_decision_cases q x now hdec
      rcases hcase with hmax | ⟨lc, hlc, -, hnum⟩
      · omega
      · rw [hlb] at hlc
        simp only [Option.some.injEq] at hlc
        subst hlc
        omega
    · intro hth
      unfold schedule_retry_decision
      rw [if_neg (by simp [hip]), if_neg (by omega), hlb]
      simp only
      rw [if_neg (by simp [hfb]), hfin]
      simp only
      rw [if_pos (by omega)]
  · intro q x now hq hip
    unfold schedule_retry_decision
    rw [if_neg (by simp [hip]), if_pos hq]

/-- Closed witness for `retry_exhaustion_threshold` at the third failed
attempt of the concrete trace. -/
theorem retry_exhaustion_threshold_witness :
    (sortAttempts c4upd3.attempts).getLast? = some c4a3f ∧
    ((update_scheduled_run_aggregate p2 c4upd3).1.retry_status =
        RetryStatus.EXHAUSTED.value ↔ p2.max_retries < c4upd3.attempts_total) :=
  ⟨by decide,
   (retry_exhaustion_threshold p2 c4upd3 c4a3f (by decide) (by decide)).1⟩

/-- C1 fails on the code: `sched1` has `overlap_policy = NO_OVERLAP` and
the store holds `c4r1`, an active (non-terminal) run of this schedule —
SKIPPED with retry IN_PROGRESS and an unfinished QUEUED attempt — yet
`create_scheduled_run` creates a second run instead of returning `None`.
The `active` query's `status NOT IN (...)` filter lists all four values
the status column can ever hold, so it never matches anything, and two
non-terminal runs for the same schedule coexist (the new run is itself
created SKIPPED, i.e. pending). -/
theorem no_overlap_check_ineffective :
    sched1.overlap_policy = OverlapPolicy.NO_OVERLAP ∧
    c4r1.schedule_id = sched1.id ∧
    c4r1.retry_status = RetryStatus.IN_PROGRESS.value ∧
    c4r1.attempts = [c4a1] ∧
    c4a1.finished_at = none ∧
    ¬ terminalAttemptStatus c4a1.status ∧
    c4r1.status ∈ runFinalResultValues ∧
    overlapActiveQuery sched1.id [c4r1] = none ∧
    (create_scheduled_run sched1 [env1] [c4r1] 5 TriggeringEvent.CRON).isSome = true ∧
    Option.map (fun x => x.status) (create_scheduled_run sched1 [env1] [c4r1] 5 TriggeringEvent.CRON) =
      some RunFinalResult.SKIPPED.value := by
  decide

/-! ## Cron evaluation and the scheduler loop

Instants here are minutes since an arbitrary UTC epoch (for the
concrete hourly example: minutes since 2024-01-01T00:00:00Z). -/

theorem nextFireAux_first (matchesFn : Int → Bool) :
    ∀ (fuel : Nat) (s t : Int), nextFireAux matchesFn fuel s = some t →
      s < t ∧ matchesFn t = true ∧ ∀ u, s < u → u < t → matchesFn u = false := by
  intro fuel
  induction fuel with
  | zero =>
      intro s t h
      exact absurd h (by simp [nextFireAux])
  | succ n ih =>
      intro s t h
      simp only [nextFireAux] at h
      split_ifs at h with hm
      · simp only [Option.some.injEq] at h
        subst h
        exact ⟨by omega, hm, fun u h1 h2 => absurd h1 (by omega)⟩
      · obtain ⟨h1, h2, h3⟩ := ih (s + 1) t h
        refine ⟨by omega, h2, ?_⟩
        intro u hu1 hu2
        simp only [Bool.not_eq_true] at hm
        rcases eq_or_lt_of_le (by omega : s + 1 ≤ u) with he | hl
        · exact he ▸ hm
        · exact h3 u hl hu2

/-- C7: `NextFireTime` returns the first matching instant strictly
after `from` — the result is strictly greater than the instant it was
computed from, it matches the cron expression, and no earlier instant
after `from` does; for cron `"0 * * * *"` in UTC and
`from = 2024-01-01T00:05:00Z` (minute 5) the result is
2024-01-01T01:00:00Z (minute 60). -/
theorem next_fire_time_spec (fuel : Nat) (matchesFn : Int → Bool) (fromTime t : Int)
    (h : nextFireTime fuel matchesFn fromTime = some t) :
    (fromTime < t ∧ matchesFn t = true ∧
      ∀ u, fromTime < u → u < t → matchesFn u = false) ∧
    nextFireTime 600 hourlyMatches 5 = some 60 :=
  ⟨nextFireAux_first matchesFn fuel fromTime t h, by decide⟩

/-- Closed witness for `next_fire_time_spec` at the hourly example. -/
theorem next_fire_time_spec_witness :
    (5 : Int) < 60 ∧ hourlyMatches 60 = true :=
  ⟨(next_fire_time_spec 600 hourlyMatches 5 60 (by decide)).1.1,
   (next_fire_time_spec 600 hourlyMatches 5 60 (by decide)).1.2.1⟩

/-- C9 as stated is false on the code: on an unparseable cron
expression or unresolvable timezone (`parsed = none`),
`_compute_next_run_time` returns None and writes no SchedulerEvent row
at all — in particular none with level ERROR.  The error reaches the
application log (`logger.error`) only. -/
theorem cron_error_event_counterexample :
    (compute_next_run_time 600 none 5).1 = none ∧
    (compute_next_run_time 600 none 5).2 = [] ∧
    ¬ ∃ e ∈ (compute_next_run_time 600 none 5).2, e.level = "ERROR" := by
  decide

/-- C9 (amended): on an unparseable cron expression or unresolvable
timezone the error is logged to the application log only (no
SchedulerEvent is written), `next_run_time` is left unresolved (None),
and the schedule stalls: `find_due_schedules` never selects a schedule
whose `next_run_time` is None, and due-schedule processing never
touches `enabled` (the schedule is not auto-disabled). -/
theorem cron_error_stalls (fuel : Nat) (from_time : Int) :
    compute_next_run_time fuel none from_time = (none, []) ∧
    (∀ (schedules : List ScheduleRec) (s : ScheduleRec) (now : Int),
       s.next_run_time = none → s ∉ find_due_schedules schedules now) ∧
    (∀ (parsed : Option (Int → Bool)) (mc : Nat) (now : Int) (sched : ScheduleRec)
       (envs : List EnvironmentRec) (runs : List RunRec),
       (process_due_schedule fuel parsed mc now sched envs runs).1.enabled =
         sched.enabled) := by
  refine ⟨rfl, ?_, ?_⟩
  · intro schedules s now hnil hmem
    simp [find_due_schedules, List.mem_filter, hnil] at hmem
  · intro parsed mc now sched envs runs
    simp only [process_due_schedule]
    rcases hnf : (processDueAux fuel parsed sched.catch_up_policy now sched envs
        mc (sched.next_run_time.getD now) runs [] 0).1 with _ | n <;>
      split_ifs <;> simp [apply_ite]

/-- Closed witness for `cron_error_stalls`. -/
theorem cron_error_stalls_witness :
    compute_next_run_time 600 none 5 = (none, []) ∧
    ({ id := 9, environment_id := 1, next_run_time := none } : ScheduleRec) ∉
      find_due_schedules [{ id := 9, environment_id := 1, next_run_time := none }] 0 :=
  ⟨(cron_error_stalls 600 5).1, (cron_error_stalls 600 5).2.1 _ _ 0 rfl⟩

/-- C3's SKIP half is false on the code: with three missed hourly
firings (slots 0, 60, 120; now = 125) and `catch_up_policy = SKIP`,
exactly one run is created, but `next_run_time` advances by only one
cron step, to the second missed slot 60 — still `≤ now` — not past all
three missed slots to the first future slot 180. -/
theorem catch_up_skip_counterexample :
    (process_due_schedule 600 (some hourlyMatches) 10 125
        (schedC3 .SKIP) [env1] []).2.2 = [0] ∧
    (process_due_schedule 600 (some hourlyMatches) 10 125
        (schedC3 .SKIP) [env1] []).1.next_run_time = some 60 ∧
    (process_due_schedule 600 (some hourlyMatches) 10 125
        (schedC3 .SKIP) [env1] []).1.next_run_time ≠ some 180 ∧
    (60 : Int) ≤ 125 := by
  decide

/-- C3 (amended): with three missed hourly firings (slots 0, 60, 120;
now = 125) and `max_catchup_runs = 10`: under CATCH_UP exactly three
ScheduledRuns are created, one per missed slot, and `next_run_time`
ends at the first future slot 180 (> now); under SKIP exactly one
ScheduledRun is created (the earliest overdue slot 0) and
`next_run_time` advances by exactly one cron step to the second missed
slot 60, which is still ≤ now — later missed firings are processed on
subsequent ticks rather than skipped past within this tick. -/
theorem catch_up_semantics :
    (process_due_schedule 600 (some hourlyMatches) 10 125
        (schedC3 .CATCH_UP) [env1] []).2.2 = [0, 60, 120] ∧
    (process_due_schedule 600 (some hourlyMatches) 10 125
        (schedC3 .CATCH_UP) [env1] []).2.1.length = 3 ∧
    (process_due_schedule 600 (some hourlyMatches) 10 125
        (schedC3 .CATCH_UP) [env1] []).1.next_run_time = some 180 ∧
    (125 : Int) < 180 ∧ hourlyMatches 180 = true ∧
    (process_due_schedule 600 (some hourlyMatches) 10 125
        (schedC3 .SKIP) [env1] []).2.2 = [0] ∧
    (process_due_schedule 600 (some hourlyMatches) 10 125
        (schedC3 .SKIP) [env1] []).2.1.length = 1 ∧
    (process_due_schedule 600 (some hourlyMatches) 10 125
        (schedC3 .SKIP) [env1] []).1.next_run_time = some 60 ∧
    (60 : Int) ≤ 125 := by
  decide

/-! ## Retention (`scheduler_service.py`, `_apply_retention_for_schedule`)

Instants in this section are days since an arbitrary epoch
(`timedelta(days=keep_for_n_days)` becomes integer subtraction). -/

theorem mem_insertByTimeDesc (r x : RunRec) (l : List RunRec) :
    x ∈ insertByTimeDesc r l ↔ x = r ∨ x ∈ l := by
  induction l with
  | nil => simp [insertByTimeDesc]
  | cons b bs ih =>
      simp only [insertByTimeDesc]
      split_ifs <;> simp_all [List.mem_cons] <;> tauto

theorem mem_sortRunsDesc (x : RunRec) (l : List RunRec) :
    x ∈ sortRunsDesc l ↔ x ∈ l := by
  induction l with
  | nil => simp [sortRunsDesc]
  | cons b bs ih =>
      show x ∈ insertByTimeDesc b (sortRunsDesc bs) ↔ _
      rw [mem_insertByTimeDesc]
      simp [ih]

/-- Membership in the retention candidate set implies every configured
filter excludes the run and the run is terminal. -/
theorem retention_candidates_only_if (policy : RetentionPolicyRec) (schedule_id : Int)
    (store : List RunRec) (now : Int) (r : RunRec)
    (hmem : r ∈ retention_candidates policy schedule_id store now) :
    r.schedule_id = schedule_id ∧
    (∀ k, policy.keep_last_n_runs = some k → 0 < k →
      r.id ∉ ((sortRunsDesc (store.filter
        (fun x => x.schedule_id == schedule_id))).take k.toNat).map (fun x => x.id)) ∧
    (∀ d, policy.keep_for_n_days = some d → 0 < d → r.scheduled_at < now - d) ∧
    (r.status = RunFinalResult.SUCCESS.value ∨ r.status = RunFinalResult.FAILURE.value ∨
      r.status = RunFinalResult.CANCELLED.value) := by
  obtain ⟨sc, kl, kd, act⟩ := policy
  simp only [retention_candidates] at hmem
  split_ifs at hmem with hnil
  · simp at hmem
  · rw [List.mem_filter] at hmem
    obtain ⟨h2, hterm⟩ := hmem
    have hterm4 : r.status = RunFinalResult.SUCCESS.value ∨
        r.status = RunFinalResult.FAILURE.value ∨
        r.status = RunFinalResult.CANCELLED.value := by
      simpa using hterm
    have hage : (r ∈ (match kl with
        | some k =>
            if 0 < k then
              (sortRunsDesc (store.filter (fun x => x.schedule_id == schedule_id))).filter
                (fun x : RunRec => !((((sortRunsDesc (store.filter
                  (fun y : RunRec => y.schedule_id == schedule_id))).take k.toNat).map
                    (fun y : RunRec => y.id)).contains x.id))
            else sortRunsDesc (store.filter (fun x => x.schedule_id == schedule_id))
        | none => sortRunsDesc (store.filter (fun x => x.schedule_id == schedule_id)))) ∧
        (∀ d, (kd : Option Int) = some d → 0 < d → r.scheduled_at < now - d) := by
      rcases kd with _ | d
      · refine ⟨h2, ?_⟩
        intro d hd
        cases hd
      · simp only at h2
        split_ifs at h2 with hdpos
        · rw [List.mem_filter] at h2
          refine ⟨h2.1, ?_⟩
          intro d' hd' _
          injection hd' with hdd
          subst hdd
          simpa using h2.2
        · refine ⟨h2, ?_⟩
          intro d' hd' hpos
          injection hd' with hdd
          omega
    have hkeep : r ∈ sortRunsDesc (store.filter (fun x => x.schedule_id == schedule_id)) ∧
        (∀ k, (kl : Option Int) = some k → 0 < k →
          r.id ∉ ((sortRunsDesc (store.filter
            (fun x => x.schedule_id == schedule_id))).take k.toNat).map (fun x => x.id)) := by
      obtain ⟨h3, -⟩ := hage
      rcases kl with _ | k
      · refine ⟨h3, ?_⟩
        intro k hk
        cases hk
      · simp only at h3
        split_ifs at h3 with hkpos
        · rw [List.mem_filter] at h3
          refine ⟨h3.1, ?_⟩
          intro k' hk' _
          injection hk' with hkk
          subst hkk
          simpa using h3.2
        · refine ⟨h3, ?_⟩
          intro k' hk' hpos
          injection hk' with hkk
          omega
    have hsid : r.schedule_id = schedule_id := by
      have := (List.mem_filter.mp ((mem_sortRunsDesc r _).mp hkeep.1)).2
      simpa using this
    exact ⟨hsid, hkeep.2, hage.2, hterm4⟩

/-- C6: a ScheduledRun is deleted or archived only if every configured
(positive) filter independently excludes it — it is not among the
newest `keep_last_n_runs` runs, it is older than `now - keep_for_n_days`
when that filter is set — and it is in a terminal state.  In the
concrete scenario (10 terminal runs, keep_last_n_runs = 5,
keep_for_n_days = 30, action = DELETE, now 40 days after the oldest 5)
exactly the oldest 5 runs are deleted; the newest 5 survive untouched
even though all ten runs are older than the 30-day cutoff. -/
theorem retention_spec (policy : RetentionPolicyRec) (schedule_id : Int)
    (store : List RunRec) (now : Int) (r : RunRec)
    (hmem : r ∈ retention_candidates policy schedule_id store now) :
    (r.schedule_id = schedule_id ∧
     (∀ k, policy.keep_last_n_runs = some k → 0 < k →
       r.id ∉ ((sortRunsDesc (store.filter
         (fun x => x.schedule_id == schedule_id))).take k.toNat).map (fun x => x.id)) ∧
     (∀ d, policy.keep_for_n_days = some d → 0 < d → r.scheduled_at < now - d) ∧
     (r.status = RunFinalResult.SUCCESS.value ∨ r.status = RunFinalResult.FAILURE.value ∨
       r.status = RunFinalResult.CANCELLED.value)) ∧
    ((apply_retention_for_schedule c6policy 3 c6store 40).1.map (fun x => x.id) =
        [1, 2, 3, 4, 5] ∧
     (apply_retention_for_schedule c6policy 3 c6store 40).2 = [] ∧
     (c6store.filter (fun x => decide (x.id ∉
         (apply_retention_for_schedule c6policy 3 c6store 40).1.map
           (fun y => y.id)))).map (fun x => x.id) = [6, 7, 8, 9, 10] ∧
     c6store.all (fun x => decide (x.scheduled_at < 40 - 30)) = true) :=
  ⟨retention_candidates_only_if policy schedule_id store now r hmem, by decide⟩

/-- Closed witness for `retention_spec` at the oldest run of the
scenario. -/
theorem retention_spec_witness :
    c6run 1 0 ∈ retention_candidates c6policy 3 c6store 40 ∧
    (c6run 1 0).schedule_id = 3 :=
  ⟨by decide, (retention_spec c6policy 3 c6store 40 (c6run 1 0) (by decide)).1.1⟩

/-! ## Notification dispatch (`notification_service.py`,
`send_notifications`; `scheduler_service.py`,
`_send_and_record_notifications`) -/

/-- C8 fails on the code: dispatching RUN_FAILED with a config whose
only channel (Slack, enabled) subscribes solely to RUN_SUCCEEDED still
invokes the Slack sender — `send_notifications` checks `enabled` but
never consults a channel's `triggers` subscription list — and one
NotificationEvent is recorded for the invoked channel. -/
theorem notification_triggers_ignored :
    Option.map (fun s => s.enabled) c8config.slack = some true ∧
    Option.map (fun s => s.triggers.contains NotificationTrigger.RUN_FAILED)
      c8config.slack = some false ∧
    (send_notifications c8config .RUN_FAILED c8send).map (fun r => r.channel) =
      [NotificationChannelType.SLACK] ∧
    record_notification_events 7 .RUN_FAILED
        (send_notifications c8config .RUN_FAILED c8send) =
      [{ scheduled_run_id := 7, channel := .SLACK, trigger := "run_failed",
         status := "success", error_message := none }] := by
  decide

end DbtWorkbench
